import Mathlib

/-!
Shallow embedding of the DC-Lib media-lending bot.

The embedding covers the lending ledger and reminder engine
(`MediaRepository`, `ReminderRepository` in `src/database.py`), the ISBN
validator and Spotify token handling of `APIHandler` (`src/database.py`),
and the orchestrating borrow/return/reminder flows of `src/bot.py`.

Modelling conventions:
- the `media_items` table is a `List Loan`; the `rueckgabe_log` table is a
  `List ReturnLogEntry`; SQL statements become pure list operations;
- `DATE`/`TIMESTAMP` values are `Int` (days since an epoch); MySQL's
  `DEFAULT CURRENT_TIMESTAMP` is made explicit as a `now` parameter;
- nullable SQL columns and Python `dict.get` results are `Option`s; MySQL
  `UNIQUE KEY` semantics for `NULL` (two `NULL`s never collide) are encoded
  in `keyMatch`;
- HTTP traffic is an explicit environment record (statuses and token
  responses) and each function reports how many network calls it made;
- `ORDER BY` clauses only permute query results and every property below is
  order-insensitive, so they are dropped from the embedding;
- Python `str.strip` / `str.replace("-", "")` / `str.isdigit` are embedded
  as executable character-list operations (the repository only ever feeds
  them ASCII identifiers).
-/

namespace DCLib

/-- Python `str.strip()`: drop leading and trailing whitespace. -/
def pyStrip (s : String) : String :=
  String.mk (((s.data.dropWhile Char.isWhitespace).reverse.dropWhile
    Char.isWhitespace).reverse)

/-- Python `str.replace("-", "")` for the one-character pattern `"-"`:
remove every hyphen. -/
def removeHyphens (s : String) : String :=
  String.mk (s.data.filter (fun c => c != '-'))

/-- Python `str.isdigit()` on ASCII input: nonempty and all characters are
decimal digits. -/
def pyIsdigit (s : String) : Bool :=
  !s.isEmpty && s.data.all Char.isDigit

/-- `clean_isbn = isbn.strip().replace("-", "")` as computed both by
`APIHandler.validate_isbn` and `APIHandler.fetch_book_by_isbn`
(`src/database.py`). -/
def clean_isbn (isbn : String) : String :=
  removeHyphens (pyStrip isbn)

/-- `APIHandler.validate_isbn` (`src/database.py` lines 745-748):
`clean_isbn.isdigit() and len(clean_isbn) in [10, 13]`. -/
def validate_isbn (isbn : String) : Bool :=
  pyIsdigit (clean_isbn isbn) && (clean_isbn isbn).length ∈ [10, 13]

/-- Digit values of a string, `'0'` ↦ 0, ..., `'9'` ↦ 9. -/
def digitVals (s : String) : List Nat :=
  s.data.map (fun c => c.toNat - '0'.toNat)

/-- Modelled from the spec, NOT from the source (the source has no checksum
code): the mod-10 weighted-sum checksum for a 13-digit ISBN — digits at even
positions weigh 1, at odd positions weigh 3, and the weighted sum must be
divisible by 10. Used only to compare the spec's claimed validator with the
implemented one. -/
def specIsbn13ChecksumOk (s : String) : Bool :=
  s.length == 13 && pyIsdigit s &&
    ((digitVals s).enum.foldl
      (fun acc p => acc + p.2 * (if p.1 % 2 == 0 then 1 else 3)) 0) % 10 == 0

/-- Modelled from the spec, NOT from the source: the mod-11 weighted-sum
checksum for a 10-digit ISBN, with a terminal `'X'` standing for the value
10 — position `i` (from 0) weighs `10 - i`, and the weighted sum must be
divisible by 11. Used only to compare the spec's claimed validator with the
implemented one. -/
def specIsbn10ChecksumOk (s : String) : Bool :=
  s.length == 10 &&
    (s.data.take 9).all Char.isDigit &&
    (s.data.getLast?.any (fun c => c.isDigit || c == 'X')) &&
    ((s.data.map (fun c => if c == 'X' then 10 else c.toNat - '0'.toNat)).enum.foldl
      (fun acc p => acc + p.2 * (10 - p.1)) 0) % 11 == 0

/-- A resolver result (`media_info` dict): the canonical media record handed
to `MediaRepository.borrow_media`. Optional fields mirror
`media_info.get(...)` returning `None` when absent. -/
structure MediaInfo where
  external_id : Option String := none
  title : String
  subtitle : Option String := none
  authors : Option String := none
  artists : Option String := none
  description : Option String := none
  cover : Option String := none
  release_date : Option String := none
  duration : Option Int := none
  genres : Option String := none
  publisher : Option String := none
  isbn : Option String := none
  upc : Option String := none
  rating : Option Int := none
  platforms : Option String := none
  players : Option String := none
deriving DecidableEq, Repr

/-- A row of the `media_items` table (`Database.init_tables`,
`src/database.py`). `createdOn` models the `created_on TIMESTAMP DEFAULT
CURRENT_TIMESTAMP` column; `reminded` defaults to `FALSE`. -/
structure Loan where
  userId : Nat
  username : String
  mediaType : String
  externalId : Option String := none
  title : String
  subtitle : Option String := none
  authors : Option String := none
  artists : Option String := none
  description : Option String := none
  cover : Option String := none
  release_date : Option String := none
  duration : Option Int := none
  genres : Option String := none
  publisher : Option String := none
  isbn : Option String := none
  upc : Option String := none
  rating : Option Int := none
  platforms : Option String := none
  players : Option String := none
  dueDate : Int
  reminded : Bool := false
  createdOn : Int := 0
deriving DecidableEq, Repr

/-- A row of the `rueckgabe_log` table; `timestamp` models the
`TIMESTAMP DEFAULT CURRENT_TIMESTAMP` column. -/
structure ReturnLogEntry where
  moderatorId : Nat
  userId : Nat
  mediaType : String
  externalId : String
  title : String
  timestamp : Int := 0
deriving DecidableEq, Repr

/-- Both tables together, as touched by `MediaRepository.return_media`. -/
structure LedgerState where
  loans : List Loan
  log : List ReturnLogEntry
deriving DecidableEq, Repr

/-- Collision test for the `UNIQUE KEY uq_user_media (user_id, media_type,
external_id)` constraint. MySQL unique keys never treat two `NULL`s as
equal, so a `none` external id collides with nothing. -/
def keyMatch (uid : Nat) (mt : String) (eid : Option String) (l : Loan) : Bool :=
  l.userId == uid && l.mediaType == mt &&
    match eid, l.externalId with
    | some a, some b => a == b
    | _, _ => false

/-- The `ON DUPLICATE KEY UPDATE` arm of `MediaRepository.borrow_media`
(`src/database.py` lines 110-118): overwrite `title`, `subtitle`, `authors`,
`artists`, `description`, `cover`, `due_date` with the incoming values and
reset `reminded` to `FALSE`; every other column keeps its stored value. -/
def applyDupUpdate (info : MediaInfo) (dueDate : Int) (l : Loan) : Loan :=
  { l with
    title := info.title
    subtitle := info.subtitle
    authors := info.authors
    artists := info.artists
    description := info.description
    cover := info.cover
    dueDate := dueDate
    reminded := false }

/-- The `INSERT` arm of `MediaRepository.borrow_media`: a fresh row built
from the tuple of bound parameters, with `reminded` and `created_on` taking
their column defaults. -/
def mkLoan (now : Int) (uid : Nat) (username mt : String) (info : MediaInfo)
    (dueDate : Int) : Loan :=
  { userId := uid
    username := username
    mediaType := mt
    externalId := info.external_id
    title := info.title
    subtitle := info.subtitle
    authors := info.authors
    artists := info.artists
    description := info.description
    cover := info.cover
    release_date := info.release_date
    duration := info.duration
    genres := info.genres
    publisher := info.publisher
    isbn := info.isbn
    upc := info.upc
    rating := info.rating
    platforms := info.platforms
    players := info.players
    dueDate := dueDate
    reminded := false
    createdOn := now }

/-- `MediaRepository.borrow_media` (`src/database.py` lines 100-138):
`INSERT ... ON DUPLICATE KEY UPDATE ...` against `media_items`. If some row
collides on `(user_id, media_type, external_id)` that row is updated via
`applyDupUpdate`; otherwise a new row is inserted. -/
def borrow_media (now : Int) (st : List Loan) (uid : Nat) (username mt : String)
    (info : MediaInfo) (dueDate : Int) : List Loan :=
  if st.any (keyMatch uid mt info.external_id) then
    st.map (fun l =>
      if keyMatch uid mt info.external_id l then applyDupUpdate info dueDate l else l)
  else
    st ++ [mkLoan now uid username mt info dueDate]

/-- The `WHERE user_id = %s AND media_type = %s AND external_id = %s` filter
of `MediaRepository.return_media`; the bound `external_id` is a string, and
SQL equality against a `NULL` column is never true. -/
def retMatch (uid : Nat) (mt : String) (eid : String) (l : Loan) : Bool :=
  l.userId == uid && l.mediaType == mt &&
    match l.externalId with
    | some b => b == eid
    | none => false

/-- `MediaRepository.return_media` (`src/database.py` lines 140-159):
`SELECT title` + `fetchone` on the key; if a row is found, `DELETE` the
matching rows and `INSERT` one `rueckgabe_log` row carrying the user id as
both `moderator_id` and `user_id`; return the fetched row's title (the
caller reads only `media["title"]`). If no row is found, nothing changes
and `None` is returned. -/
def return_media (now : Int) (st : LedgerState) (uid : Nat) (mt eid : String) :
    LedgerState × Option String :=
  match st.loans.find? (retMatch uid mt eid) with
  | none => (st, none)
  | some m =>
      ({ loans := st.loans.filter (fun l => !(retMatch uid mt eid l))
         log := st.log ++
           [{ moderatorId := uid, userId := uid, mediaType := mt,
              externalId := eid, title := m.title, timestamp := now }] },
       some m.title)

/-- `MediaRepository.get_user_media` with `media_type = None`
(`src/database.py` lines 161-175): all rows of one user. The `ORDER BY
due_date` clause only permutes the result and is dropped. -/
def get_user_media (st : List Loan) (uid : Nat) : List Loan :=
  st.filter (fun l => l.userId == uid)

/-- `MediaCommands._check_loan_limit` (`src/bot.py` lines 622-626): the
user's total row count (all media types) must be strictly below
`media_settings.max_loans_per_user`. -/
def check_loan_limit (st : List Loan) (uid : Nat) (maxLoans : Nat) : Bool :=
  (get_user_media st uid).length < maxLoans

/-- `ReminderRepository.get_due_media` with `media_type = None`
(`src/database.py` lines 183-197): `WHERE reminded = FALSE AND due_date <=
reminder_date`. -/
def get_due_media (st : List Loan) (reminderDate : Int) : List Loan :=
  st.filter (fun l => !l.reminded && decide (l.dueDate ≤ reminderDate))

/-- The row transformation of `ReminderRepository.mark_media_reminded`
(`src/database.py` lines 199-206): the SQL `UPDATE` is keyed on
`(user_id, title, media_type)` — not on `external_id`. -/
def markFun (uid : Nat) (title mt : String) (l : Loan) : Loan :=
  if l.userId == uid && l.title == title && l.mediaType == mt then
    { l with reminded := true }
  else l

/-- `ReminderRepository.mark_media_reminded`: `UPDATE media_items SET
reminded = TRUE WHERE user_id = %s AND title = %s AND media_type = %s`. -/
def mark_media_reminded (st : List Loan) (uid : Nat) (title mt : String) :
    List Loan :=
  st.map (markFun uid title mt)

/-- Environment of one reminder sweep (`ReminderTasks.remind_due_media`,
`src/bot.py` lines 904-938): whether `bot.get_user` finds each user, whether
DM reminders are enabled, and whether `user.send` succeeds for a given row
(`false` = the send raises `discord.Forbidden` or another exception). -/
structure SweepEnv where
  userExists : Nat → Bool
  dmEnabled : Bool
  sendOk : Loan → Bool

/-- One iteration of the sweep loop body: `if user and
enable_dm_reminders:` then `try: send; mark_media_reminded except: log and
continue`. A failed send leaves the state untouched and the loop moves on. -/
def sweepRow (env : SweepEnv) (acc : List Loan) (row : Loan) : List Loan :=
  if env.userExists row.userId && env.dmEnabled then
    if env.sendOk row then
      mark_media_reminded acc row.userId row.title row.mediaType
    else acc
  else acc

/-- `ReminderTasks.remind_due_media`: fetch the due rows once with
`reminder_date = today + remind_days_before`, then loop over them,
notifying and marking; per-row exceptions are caught inside the loop. -/
def remind_due_media (env : SweepEnv) (st : List Loan) (reminderDate : Int) :
    List Loan :=
  List.foldl (sweepRow env) st (get_due_media st reminderDate)

/-- All three conditions guarding a successful notification for one row of
the sweep: the user is resolvable, DM reminders are enabled, and the send
does not raise. -/
def rowOk (env : SweepEnv) (r : Loan) : Bool :=
  env.userExists r.userId && env.dmEnabled && env.sendOk r

/-- Whether some row of `rows` is successfully notified and its
`(user_id, title, media_type)` triple matches loan `l` — i.e. whether the
sweep's `UPDATE`s end up setting `l.reminded`. -/
def hitBy (env : SweepEnv) (rows : List Loan) (l : Loan) : Bool :=
  rows.any (fun r =>
    rowOk env r && (l.userId == r.userId && l.title == r.title &&
      l.mediaType == r.mediaType))

/-- Outcome labels of `MediaCommands._borrow_media` for the book branch. -/
inductive BorrowOutcome where
  | limitReached
  | invalidIsbn
  | bookNotFound
  | borrowed
deriving DecidableEq, Repr

/-- Result of one run of the book-borrow flow: the ledger afterwards, how
many provider network calls were made, how many ledger writes happened, and
which user-visible outcome was reported. -/
structure BookFlowResult where
  state : List Loan
  networkCalls : Nat
  ledgerWrites : Nat
  outcome : BorrowOutcome
deriving DecidableEq, Repr

/-- `MediaCommands._borrow_media` specialized to `media_type = "book"`
(`src/bot.py` lines 171-286): check the loan limit, then validate the ISBN,
and only then call `APIHandler.fetch_book_by_isbn` (one network round trip,
whose result is the `fetchResult` parameter); on success upsert via
`MediaRepository.borrow_media` with `due_date = today + due_period_days`. -/
def borrow_book_flow (now : Int) (st : List Loan) (uid : Nat) (username : String)
    (isbn : String) (maxLoans : Nat) (fetchResult : Option MediaInfo)
    (dueDate : Int) : BookFlowResult :=
  if !check_loan_limit st uid maxLoans then
    { state := st, networkCalls := 0, ledgerWrites := 0,
      outcome := .limitReached }
  else if !validate_isbn isbn then
    { state := st, networkCalls := 0, ledgerWrites := 0,
      outcome := .invalidIsbn }
  else
    match fetchResult with
    | none =>
        { state := st, networkCalls := 1, ledgerWrites := 0,
          outcome := .bookNotFound }
    | some info =>
        { state := borrow_media now st uid username "book" info dueDate,
          networkCalls := 1, ledgerWrites := 1, outcome := .borrowed }

/-- `APIHandler._get_spotify_token` (`src/database.py` lines 661-680): one
POST to the token endpoint; on HTTP 200 the cached token is replaced by the
response token (`resp = some t`), otherwise (`resp = none`) the failure is
logged and the cached token is left unchanged. Returns the new cache state
and the number of token-exchange network calls (always 1). -/
def get_spotify_token (tok : Option String) (resp : Option String) :
    Option String × Nat :=
  (match resp with
   | some t => some t
   | none => tok, 1)

/-- The token guard at the top of `APIHandler.search_music`
(`src/database.py` lines 345-346): `if not self.spotify_token: await
self._get_spotify_token()`. There is no expiry timestamp in the handler's
state — any cached token is reused as is. -/
def ensure_spotify_token (tok : Option String) (resp : Option String) :
    Option String × Nat :=
  match tok with
  | none => get_spotify_token none resp
  | some t => (some t, 0)

/-- The HTTP environment seen by one `search_music` call: the token
returned by a first exchange (if one happens), the status of the first
search request, the token returned by the forced refresh after a 401, the
status of the retried request, and the parsed item lists of either
response. Item payloads are abstracted to their external ids; the claims
below never inspect them. -/
structure MusicEnv where
  exchange1 : Option String
  firstStatus : Nat
  exchange2 : Option String
  retryStatus : Nat
  firstItems : List String
  retryItems : List String
deriving DecidableEq, Repr

/-- Observable outcome of one `APIHandler.search_music` call: the returned
value (`none` = the function returned `None`), the token cache afterwards,
the total number of token exchanges, how many of those were forced by a
401, and how many search requests went out. -/
structure MusicOutcome where
  result : Option (List String)
  token : Option String
  exchanges : Nat
  forcedRefreshes : Nat
  requests : Nat
deriving DecidableEq, Repr

/-- `APIHandler.search_music` (`src/database.py` lines 340-407): missing
credentials return `None` with no traffic; otherwise the token guard runs,
the search request is sent, and a 401 triggers exactly one
`_get_spotify_token` refresh plus one retry of the same request — a non-200
retry (including a second 401) returns `None`. Any other non-200 returns
`None`; a 200 returns the parsed items. -/
def search_music (hasCreds : Bool) (tok : Option String) (env : MusicEnv) :
    MusicOutcome :=
  if !hasCreds then
    { result := none, token := tok, exchanges := 0, forcedRefreshes := 0,
      requests := 0 }
  else
    let g := ensure_spotify_token tok env.exchange1
    if env.firstStatus == 401 then
      let g2 := get_spotify_token g.1 env.exchange2
      if env.retryStatus != 200 then
        { result := none, token := g2.1, exchanges := g.2 + 1,
          forcedRefreshes := 1, requests := 2 }
      else
        { result := some env.retryItems, token := g2.1, exchanges := g.2 + 1,
          forcedRefreshes := 1, requests := 2 }
    else if env.firstStatus != 200 then
      { result := none, token := g.1, exchanges := g.2, forcedRefreshes := 0,
        requests := 1 }
    else
      { result := some env.firstItems, token := g.1, exchanges := g.2,
        forcedRefreshes := 0, requests := 1 }

/-- Sample record: the worked ISBN example of the spec. -/
def recBook : MediaInfo :=
  { external_id := some "9780306406157", title := "Calculus",
    isbn := some "9780306406157", publisher := some "P1",
    release_date := some "1999", authors := some "A1" }

/-- Sample loan: user 1 holds item `"111"` titled `"Dune"`. -/
def loanA : Loan :=
  { userId := 1, username := "alice", mediaType := "book",
    externalId := some "111", title := "Dune", dueDate := 5 }

/-- Sample loan: the same user holds a different item `"222"` — a distinct
edition with the same title and media type. -/
def loanB : Loan :=
  { userId := 1, username := "alice", mediaType := "book",
    externalId := some "222", title := "Dune", dueDate := 5 }

/-- Sample loan of another user. -/
def loanC : Loan :=
  { userId := 2, username := "bob", mediaType := "book",
    externalId := some "333", title := "Emma", dueDate := 7 }

/-- Sweep environment where every user is reachable, DMs are enabled, and
only the send for item `"111"` succeeds. -/
def envA : SweepEnv :=
  { userExists := fun _ => true, dmEnabled := true,
    sendOk := fun l => l.externalId == some "111" }

/-- Sample resolver output for item `"111"`: a newer edition of `loanA`'s
item, with every denormalized field different from the stored row. -/
def recDune2 : MediaInfo :=
  { external_id := some "111", title := "Dune 2nd", subtitle := some "S2",
    authors := some "FH", artists := some "AR2", description := some "D2",
    cover := some "C2", release_date := some "1965", duration := some 9,
    genres := some "scifi", publisher := some "ACE", isbn := some "222",
    upc := some "U2", rating := some 4, platforms := some "PS",
    players := some "2" }

/-- Sample ledger holding `loanA` and `loanC` with an empty return log. -/
def ledgerA : LedgerState :=
  { loans := [loanA, loanC], log := [] }

/-- Spotify environment: the first search request already answers 200. -/
def env200 : MusicEnv :=
  { exchange1 := none, firstStatus := 200, exchange2 := none,
    retryStatus := 200, firstItems := ["a1"], retryItems := [] }

/-- Spotify environment: the first search request answers 401 and so does
the retried one. -/
def env401 : MusicEnv :=
  { exchange1 := some "t0", firstStatus := 401, exchange2 := some "t1",
    retryStatus := 401, firstItems := [], retryItems := [] }

/-! ## Helper lemmas -/

/-- The duplicate-key update never touches the three key columns, so the
collision test is invariant under it. -/
theorem keyMatch_applyDupUpdate (uid : Nat) (mt : String) (eid : Option String)
    (info : MediaInfo) (d : Int) (l : Loan) :
    keyMatch uid mt eid (applyDupUpdate info d l) = keyMatch uid mt eid l := rfl

/-- When the unique key collides, `borrow_media` takes the update branch. -/
theorem borrow_media_update (now d : Int) (st : List Loan) (uid : Nat)
    (un mt : String) (info : MediaInfo)
    (h : st.any (keyMatch uid mt info.external_id) = true) :
    borrow_media now st uid un mt info d =
      st.map (fun l =>
        if keyMatch uid mt info.external_id l then applyDupUpdate info d l
        else l) := by
  simp [borrow_media, h]

/-- Row count of a given non-`NULL` key after one upsert: unchanged when the
key was already present, one more when it was not. -/
theorem countP_borrow_media (now d : Int) (st : List Loan) (uid : Nat)
    (un mt : String) (info : MediaInfo) (e : String)
    (he : info.external_id = some e) :
    (borrow_media now st uid un mt info d).countP (keyMatch uid mt (some e)) =
      if st.any (keyMatch uid mt (some e)) then
        st.countP (keyMatch uid mt (some e))
      else st.countP (keyMatch uid mt (some e)) + 1 := by
  unfold borrow_media
  rw [he]
  split
  · rw [List.countP_map]
    apply List.countP_congr
    intro l _
    by_cases hk : keyMatch uid mt (some e) l = true
    · simp [Function.comp, hk, keyMatch_applyDupUpdate]
    · simp only [Bool.not_eq_true] at hk
      simp [Function.comp, hk]
  · rw [List.countP_append]
    simp [keyMatch, mkLoan, he]

/-! ## Claim C1: the ISBN validator -/

/-- Claim C1 is false on the code: `APIHandler.validate_isbn` computes no
checksum at all. The one-digit mutation `9780306406158` of the valid ISBN
`9780306406157` fails the spec's mod-10 checksum yet is accepted, and the
checksum-valid 10-digit ISBN `123456789X` with terminal `'X'` is
rejected. -/
theorem claim1_counterexample :
    validate_isbn "9780306406158" = true ∧
    specIsbn13ChecksumOk "9780306406158" = false ∧
    specIsbn13ChecksumOk "9780306406157" = true ∧
    validate_isbn "123456789X" = false ∧
    specIsbn10ChecksumOk "123456789X" = true := by decide

/-- Claim C1 as amended: the validator accepts exactly the strings that,
after stripping surrounding whitespace and hyphens, are nonempty all-digit
strings of length 10 or 13 — no checksum is verified (so `9780306406157` is
accepted, but so is any same-length digit mutation, and an `'X'`-terminal
ISBN-10 is rejected); wrong-length and non-digit input is rejected; and in
the borrow flow a rejected ISBN fails fast before any network call and
before any ledger write. -/
theorem claim1_thm (s isbn username : String) (now dueDate : Int)
    (st : List Loan) (uid maxLoans : Nat) (fetchResult : Option MediaInfo)
    (hbad : validate_isbn isbn = false) :
    (validate_isbn s = true ↔
      (pyIsdigit (clean_isbn s) = true ∧
        ((clean_isbn s).length = 10 ∨ (clean_isbn s).length = 13))) ∧
    validate_isbn "9780306406157" = true ∧
    (borrow_book_flow now st uid username isbn maxLoans fetchResult
      dueDate).networkCalls = 0 ∧
    (borrow_book_flow now st uid username isbn maxLoans fetchResult
      dueDate).state = st ∧
    (borrow_book_flow now st uid username isbn maxLoans fetchResult
      dueDate).ledgerWrites = 0 := by
  refine ⟨?_, by decide, ?_, ?_, ?_⟩
  · simp [validate_isbn]
  all_goals
    by_cases hlim : check_loan_limit st uid maxLoans <;>
      simp [borrow_book_flow, hlim, hbad]

/-- Witness for `claim1_thm`: the malformed ISBN `"12ab"` is rejected
and its borrow attempt performs no network call. -/
theorem claim1_witness :
    validate_isbn "12ab" = false ∧
    (borrow_book_flow 0 [] 1 "alice" "12ab" 10 none 14).networkCalls = 0 :=
  ⟨by decide,
   (claim1_thm "x" "12ab" "alice" 0 14 [] 1 10 none (by decide)).2.2.1⟩

/-! ## Claim C2: idempotent borrow upsert -/

/-- Claim C2: starting from any table satisfying the unique-key invariant,
borrowing the same record twice (due dates `d1` then `d2`) leaves exactly
one row for the key `(uid, mt, rec.externalId)`, and that row carries
`dueDate = d2` and `reminded = false`. -/
theorem claim2_thm (now1 now2 d1 d2 : Int) (st : List Loan) (uid : Nat)
    (un : String) (info : MediaInfo) (e : String)
    (he : info.external_id = some e)
    (hinv : st.countP (keyMatch uid "book" (some e)) ≤ 1) :
    (borrow_media now2 (borrow_media now1 st uid un "book" info d1) uid un
        "book" info d2).countP (keyMatch uid "book" (some e)) = 1 ∧
    ∀ l ∈ borrow_media now2 (borrow_media now1 st uid un "book" info d1) uid
        un "book" info d2,
      keyMatch uid "book" (some e) l = true →
        l.dueDate = d2 ∧ l.reminded = false := by
  have h1 : (borrow_media now1 st uid un "book" info d1).countP
      (keyMatch uid "book" (some e)) = 1 := by
    rw [countP_borrow_media now1 d1 st uid un "book" info e he]
    by_cases ha : st.any (keyMatch uid "book" (some e)) = true
    · rw [if_pos ha]
      obtain ⟨x, hx, hkx⟩ := List.any_eq_true.mp ha
      have hpos : 0 < st.countP (keyMatch uid "book" (some e)) :=
        List.countP_pos_iff.mpr ⟨x, hx, hkx⟩
      omega
    · have ha' : st.any (keyMatch uid "book" (some e)) = false := by
        simpa using ha
      rw [if_neg (by simp [ha'])]
      have hz : st.countP (keyMatch uid "book" (some e)) = 0 :=
        List.countP_eq_zero.mpr (fun x hx hkx => by
          simp [List.any_eq_true.mpr ⟨x, hx, hkx⟩] at ha')
      omega
  have hany1 : (borrow_media now1 st uid un "book" info d1).any
      (keyMatch uid "book" (some e)) = true := by
    rcases List.countP_pos_iff.mp (by omega : 0 < (borrow_media now1 st uid un
      "book" info d1).countP (keyMatch uid "book" (some e))) with ⟨x, hx, hkx⟩
    exact List.any_eq_true.mpr ⟨x, hx, hkx⟩
  have hany1' : (borrow_media now1 st uid un "book" info d1).any
      (keyMatch uid "book" info.external_id) = true := by
    rw [he]; exact hany1
  constructor
  · rw [countP_borrow_media now2 d2 _ uid un "book" info e he, if_pos hany1, h1]
  · intro l hl hkl
    rw [borrow_media_update now2 d2 _ uid un "book" info hany1'] at hl
    rcases List.mem_map.mp hl with ⟨x, _, hfx⟩
    by_cases hkx : keyMatch uid "book" info.external_id x = true
    · rw [if_pos hkx] at hfx
      subst hfx
      exact ⟨rfl, rfl⟩
    · rw [if_neg hkx] at hfx
      subst hfx
      rw [he] at hkx
      exact absurd hkl hkx

/-- Witness for `claim2_thm`: borrowing `recBook` twice into an empty
table leaves one row with the second due date and a cleared reminder. -/
theorem claim2_witness :
    recBook.external_id = some "9780306406157" ∧
    (borrow_media 1 (borrow_media 0 [] 1 "alice" "book" recBook 10) 1 "alice"
        "book" recBook 20).countP
      (keyMatch 1 "book" (some "9780306406157")) = 1 ∧
    ∀ l ∈ borrow_media 1 (borrow_media 0 [] 1 "alice" "book" recBook 10) 1
        "alice" "book" recBook 20,
      keyMatch 1 "book" (some "9780306406157") l = true →
        l.dueDate = 20 ∧ l.reminded = false := by
  refine ⟨rfl, ?_⟩
  exact claim2_thm 0 1 10 20 [] 1 "alice" recBook "9780306406157" rfl
    (by decide)

/-! ## Claim C3: return deletes the loan and logs exactly once -/

/-- Claim C3: if no loan matches `(uid, mt, eid)`, `return_media` reports
not-found (`none`) and changes neither table — and conversely. If one
matches, the result is the pre-delete row's title, afterwards no loan
matches the key any more, no unrelated loan is touched, nothing is added to
the loans table, and exactly one `ReturnLogEntry` with that `external_id`
and `title` is appended — the delete and the log insert happen together or
not at all. -/
theorem claim3_thm (now : Int) (st : LedgerState) (uid : Nat)
    (mt eid : String) :
    ((return_media now st uid mt eid).2 = none →
      (return_media now st uid mt eid).1 = st ∧
        ∀ l ∈ st.loans, retMatch uid mt eid l = false) ∧
    ((∀ l ∈ st.loans, retMatch uid mt eid l = false) →
      (return_media now st uid mt eid).2 = none) ∧
    (∀ t, (return_media now st uid mt eid).2 = some t →
      (∃ m ∈ st.loans, retMatch uid mt eid m = true ∧ m.title = t) ∧
      (∀ l ∈ (return_media now st uid mt eid).1.loans,
        retMatch uid mt eid l = false) ∧
      (∀ l ∈ (return_media now st uid mt eid).1.loans, l ∈ st.loans) ∧
      (∀ l ∈ st.loans, retMatch uid mt eid l = false →
        l ∈ (return_media now st uid mt eid).1.loans) ∧
      (return_media now st uid mt eid).1.log =
        st.log ++ [{ moderatorId := uid, userId := uid, mediaType := mt,
                     externalId := eid, title := t, timestamp := now }]) := by
  unfold return_media
  cases hf : st.loans.find? (retMatch uid mt eid) with
  | none =>
      refine ⟨fun _ => ⟨rfl, ?_⟩, fun _ => rfl, fun t ht => by simp at ht⟩
      intro l hl
      have := List.find?_eq_none.mp hf l hl
      simpa using this
  | some m =>
      have hm : m ∈ st.loans := List.mem_of_find?_eq_some hf
      have hkm : retMatch uid mt eid m = true := List.find?_some hf
      refine ⟨fun hc => by simp at hc, fun hall => ?_, fun t ht => ?_⟩
      · exact absurd hkm (by simp [hall m hm])
      · have htm : m.title = t := by simpa using ht
        subst htm
        refine ⟨⟨m, hm, hkm, rfl⟩, ?_, ?_, ?_, rfl⟩
        · intro l hl
          have := (List.mem_filter.mp hl).2
          simpa using this
        · intro l hl
          exact (List.mem_filter.mp hl).1
        · intro l hl hnl
          exact List.mem_filter.mpr ⟨hl, by simp [hnl]⟩

/-- Witness for `claim3_thm`: returning item `"111"` from `ledgerA`
yields title `"Dune"` and appends exactly the matching log row. -/
theorem claim3_witness :
    (return_media 3 ledgerA 1 "book" "111").2 = some "Dune" ∧
    (∃ m ∈ ledgerA.loans, retMatch 1 "book" "111" m = true ∧
      m.title = "Dune") ∧
    (return_media 3 ledgerA 1 "book" "111").1.log =
      [] ++ [{ moderatorId := 1, userId := 1, mediaType := "book",
               externalId := "111", title := "Dune", timestamp := 3 }] :=
  ⟨by decide,
   ((claim3_thm 3 ledgerA 1 "book" "111").2.2 "Dune" (by decide)).1,
   ((claim3_thm 3 ledgerA 1 "book" "111").2.2 "Dune" (by decide)).2.2.2.2⟩

/-! ## Claim C4: the reminded-update key -/

/-- Claim C4 is false on the code: `mark_media_reminded` updates by
`(user_id, title, media_type)`, not by `(user_id, media_type,
external_id)`. Here `loanB` is a distinct item of the same user with the
same title and kind (different `external_id`), and the update for `loanA`
flips `loanB.reminded` as well. -/
theorem claim4_counterexample :
    loanB.userId = loanA.userId ∧ loanB.title = loanA.title ∧
    loanB.mediaType = loanA.mediaType ∧ loanB.externalId ≠ loanA.externalId ∧
    loanB.reminded = false ∧
    mark_media_reminded [loanA, loanB] loanA.userId loanA.title
        loanA.mediaType =
      [{ loanA with reminded := true }, { loanB with reminded := true }] := by
  decide

/-- Claim C4 as amended: the sweep's update targets every loan matching
`(userId, title, kind)` — so a loan of another user, or with a different
title or kind, never changes, but a distinct loan of the same user with the
same title and kind also gets its `reminded` flag set. The update still
fires only after a successful notification: a sweep in which no send
succeeds changes nothing. -/
theorem claim4_thm (st : List Loan) (uid : Nat) (title mt : String)
    (l : Loan) (env : SweepEnv) (d : Int) :
    (l ∈ st → l.userId = uid → l.title = title → l.mediaType = mt →
      { l with reminded := true } ∈ mark_media_reminded st uid title mt) ∧
    (l ∈ st → ¬(l.userId = uid ∧ l.title = title ∧ l.mediaType = mt) →
      l ∈ mark_media_reminded st uid title mt) ∧
    (mark_media_reminded st uid title mt).length = st.length ∧
    ((∀ r, env.sendOk r = false) → remind_due_media env st d = st) := by
  refine ⟨?_, ?_, by simp [mark_media_reminded], ?_⟩
  · intro hl h1 h2 h3
    subst h1; subst h2; subst h3
    exact List.mem_map.mpr ⟨l, hl, by simp [markFun]⟩
  · intro hl hne
    refine List.mem_map.mpr ⟨l, hl, ?_⟩
    have hcond : (l.userId == uid && l.title == title &&
        l.mediaType == mt) = false := by
      cases h : (l.userId == uid && l.title == title && l.mediaType == mt)
      · rfl
      · exfalso
        apply hne
        simp only [Bool.and_eq_true, beq_iff_eq] at h
        exact ⟨h.1.1, h.1.2, h.2⟩
    simp [markFun, hcond]
  · intro hfail
    have hrow : ∀ acc r, sweepRow env acc r = acc := by
      intro acc r
      unfold sweepRow
      rw [hfail r]
      split <;> rfl
    have hfold : ∀ rows acc, List.foldl (sweepRow env) acc rows = acc := by
      intro rows
      induction rows with
      | nil => intro acc; rfl
      | cons r rows ih => intro acc; rw [List.foldl_cons, hrow acc r]; exact ih acc
    exact hfold _ st

/-- Witness for `claim4_thm`: the same-title sibling `loanB` is marked
by `loanA`'s update, while the other user's `loanC` stays untouched. -/
theorem claim4_witness :
    ({ loanB with reminded := true } ∈
      mark_media_reminded [loanA, loanB, loanC] 1 "Dune" "book") ∧
    (loanC ∈ mark_media_reminded [loanA, loanB, loanC] 1 "Dune" "book") :=
  ⟨(claim4_thm [loanA, loanB, loanC] 1 "Dune" "book" loanB envA 5).1
      (by decide) rfl rfl rfl,
   (claim4_thm [loanA, loanB, loanC] 1 "Dune" "book" loanC envA 5).2.1
      (by decide) (by decide)⟩

/-! ## Claim C5: the due-media selection predicate -/

/-- Claim C5: the sweep's query selects exactly the loans with
`reminded = false` and `due_date ≤ today + remindDaysBefore`; a loan whose
due date is already past remains eligible (the comparison is `≤`), and a
loan with `reminded = true` is never selected. -/
theorem claim5_thm (st : List Loan) (today k : Int) (l : Loan) :
    (l ∈ get_due_media st (today + k) ↔
      l ∈ st ∧ l.reminded = false ∧ l.dueDate ≤ today + k) ∧
    (l.reminded = true → l ∉ get_due_media st (today + k)) ∧
    (l ∈ st → l.reminded = false → l.dueDate < today → 0 ≤ k →
      l ∈ get_due_media st (today + k)) := by
  refine ⟨?_, ?_, ?_⟩
  · simp [get_due_media, List.mem_filter, and_assoc]
  · intro hr hmem
    rcases List.mem_filter.mp hmem with ⟨_, hp⟩
    simp [hr] at hp
  · intro h1 h2 h3 h4
    refine List.mem_filter.mpr ⟨h1, ?_⟩
    simp [h2]
    omega

/-- Witness for `claim5_thm`: the overdue, unreminded `loanA` is
selected by a sweep with `today = 10`, `remindDaysBefore = 1`. -/
theorem claim5_witness :
    (loanA ∈ get_due_media [loanA] (10 + 1) ↔
      loanA ∈ [loanA] ∧ loanA.reminded = false ∧ loanA.dueDate ≤ 10 + 1) ∧
    (loanA.reminded = true → loanA ∉ get_due_media [loanA] (10 + 1)) ∧
    (loanA ∈ [loanA] → loanA.reminded = false → loanA.dueDate < 10 →
      0 ≤ (1 : Int) → loanA ∈ get_due_media [loanA] (10 + 1)) :=
  claim5_thm [loanA] 10 1 loanA

/-! ## Claim C6: failure isolation in the sweep -/

/-- The whole sweep, unrolled: a loan ends up marked exactly when some
successfully notified selected row shares its `(user_id, title,
media_type)` triple; every other loan passes through unchanged. -/
theorem sweep_foldl_eq (env : SweepEnv) (rows : List Loan) :
    ∀ st : List Loan, List.foldl (sweepRow env) st rows =
      st.map (fun l =>
        if hitBy env rows l then { l with reminded := true } else l) := by
  induction rows with
  | nil =>
      intro st
      simp [hitBy]
  | cons r rows ih =>
      intro st
      rw [List.foldl_cons, ih (sweepRow env st r)]
      by_cases hok : rowOk env r = true
      · have hok' := hok
        unfold rowOk at hok'
        rw [Bool.and_eq_true] at hok'
        obtain ⟨h1, h2⟩ := hok'
        have hs : sweepRow env st r =
            mark_media_reminded st r.userId r.title r.mediaType := by
          simp [sweepRow, h1, h2]
        rw [hs]
        unfold mark_media_reminded
        rw [List.map_map]
        congr 1
        funext a
        by_cases hm : (a.userId == r.userId && a.title == r.title &&
            a.mediaType == r.mediaType) = true
        · have hmf : markFun r.userId r.title r.mediaType a =
              { a with reminded := true } := by
            simp [markFun, hm]
          have hcons : hitBy env (r :: rows) a = true := by
            unfold hitBy
            rw [List.any_cons]
            simp [hok, hm]
          simp only [Function.comp_apply, hmf, hcons, if_true]
          have hh : hitBy env rows { a with reminded := true } =
              hitBy env rows a := rfl
          rw [hh]
          cases hitBy env rows a <;> rfl
        · have hm' : (a.userId == r.userId && a.title == r.title &&
              a.mediaType == r.mediaType) = false := by simpa using hm
          have hmf : markFun r.userId r.title r.mediaType a = a := by
            simp [markFun, hm']
          have hcons : hitBy env (r :: rows) a = hitBy env rows a := by
            unfold hitBy
            rw [List.any_cons, hm']
            simp
          simp only [Function.comp_apply, hmf, hcons]
      · have hro : rowOk env r = false := by simpa using hok
        have hs : sweepRow env st r = st := by
          unfold sweepRow
          by_cases h1 : (env.userExists r.userId && env.dmEnabled) = true
          · rw [if_pos h1]
            have h2 : env.sendOk r = false := by
              cases hsend : env.sendOk r
              · rfl
              · have htrue : rowOk env r = true := by
                  simp [rowOk, h1, hsend]
                rw [hro] at htrue
                exact absurd htrue (by decide)
            simp [h2]
          · rw [if_neg h1]
        rw [hs]
        congr 1
        funext a
        have hfull : (rowOk env r && (a.userId == r.userId &&
            a.title == r.title && a.mediaType == r.mediaType)) = false := by
          rw [hro]
          rfl
        simp [hitBy, List.any_cons, hfull]

/-- Claim C6 is false on the code in one corner: because the marking is
keyed on `(user_id, title, media_type)`, a failed notification for `loanB`
does not keep it eligible when the same sweep successfully notifies
`loanA`, the same user's same-title item — `loanB` ends with
`reminded = true` and the next sweep selects nothing. -/
theorem claim6_counterexample :
    envA.sendOk loanB = false ∧ envA.sendOk loanA = true ∧
    loanB.reminded = false ∧ loanB ∈ get_due_media [loanA, loanB] 5 ∧
    remind_due_media envA [loanA, loanB] 5 =
      [{ loanA with reminded := true }, { loanB with reminded := true }] ∧
    get_due_media (remind_due_media envA [loanA, loanB] 5) 5 = [] := by
  decide

/-- Claim C6 as amended: a notification failure for one loan never aborts
the sweep — any other selected loan whose send succeeds is still marked; a
loan not matching the `(userId, title, kind)` triple of any successfully
notified row passes through unchanged and, if still due and unreminded,
stays eligible for the next sweep (a failed loan loses eligibility only
when a successful notification for a same-triple sibling marks it as a side
effect); and a sweep never selects a loan with `reminded = true`, so a
successfully notified loan is excluded from the next sweep. -/
theorem claim6_thm (env : SweepEnv) (st : List Loan) (d : Int) (l : Loan)
    (hl : l ∈ st) :
    (l.reminded = false → l.dueDate ≤ d → rowOk env l = true →
      { l with reminded := true } ∈ remind_due_media env st d) ∧
    (hitBy env (get_due_media st d) l = false →
      l ∈ remind_due_media env st d) ∧
    (hitBy env (get_due_media st d) l = false → l.reminded = false →
      l.dueDate ≤ d → l ∈ get_due_media (remind_due_media env st d) d) ∧
    (∀ l', l' ∈ get_due_media (remind_due_media env st d) d →
      l'.reminded = false) := by
  have hpass : hitBy env (get_due_media st d) l = false →
      l ∈ remind_due_media env st d := by
    intro hmiss
    rw [remind_due_media, sweep_foldl_eq]
    exact List.mem_map.mpr ⟨l, hl, by simp [hmiss]⟩
  refine ⟨?_, hpass, ?_, ?_⟩
  · intro hr hd hok
    rw [remind_due_media, sweep_foldl_eq]
    refine List.mem_map.mpr ⟨l, hl, ?_⟩
    have hmem : l ∈ get_due_media st d :=
      List.mem_filter.mpr ⟨hl, by simp [hr, hd]⟩
    have hhit : hitBy env (get_due_media st d) l = true := by
      unfold hitBy
      exact List.any_eq_true.mpr ⟨l, hmem, by simp [hok]⟩
    simp [hhit]
  · intro hmiss h2 h3
    exact List.mem_filter.mpr ⟨hpass hmiss, by simp [h2, h3]⟩
  · intro l' hl'
    rcases List.mem_filter.mp hl' with ⟨_, hp⟩
    rw [Bool.and_eq_true] at hp
    simpa using hp.1

/-- Witness for `claim6_thm`: with `envA` (only item `"111"` sendable),
`loanA` is marked despite other failures, while `loanC` — whose own send
fails and which shares no triple with a success — is untouched and stays
eligible. -/
theorem claim6_witness :
    ({ loanA with reminded := true } ∈ remind_due_media envA [loanA, loanC] 8) ∧
    (loanC ∈ remind_due_media envA [loanA, loanC] 8) ∧
    (loanC ∈ get_due_media (remind_due_media envA [loanA, loanC] 8) 8) :=
  ⟨(claim6_thm envA [loanA, loanC] 8 loanA (by decide)).1 rfl (by decide)
      (by decide),
   (claim6_thm envA [loanA, loanC] 8 loanC (by decide)).2.1 (by decide),
   (claim6_thm envA [loanA, loanC] 8 loanC (by decide)).2.2.1 (by decide)
      rfl (by decide)⟩

/-! ## Claim C7: the credential cache and token expiry -/

/-- Claim C7 is false on the code: `APIHandler` stores only the bare token
string, with no `expiresAt` and no safety margin. After the first exchange
(`"tok1"`), every later call — however much time has passed, in particular
after the token's real-world expiry — performs zero further exchanges and
hands back the original, now stale, token instead of the claimed exactly
one more exchange. A full `search_music` call against a 200-answering
provider likewise performs zero exchanges with a stale cached token. -/
theorem claim7_counterexample :
    (ensure_spotify_token none (some "tok1")).2 = 1 ∧
    (ensure_spotify_token (ensure_spotify_token none (some "tok1")).1
      (some "tok2")).2 = 0 ∧
    (ensure_spotify_token (ensure_spotify_token none (some "tok1")).1
      (some "tok3")).2 = 0 ∧
    (ensure_spotify_token (ensure_spotify_token none (some "tok1")).1
      (some "tok3")).1 = some "tok1" ∧
    (search_music true (some "stale") env200).exchanges = 0 := by decide

/-- Claim C7 as amended: the cache keeps no expiry state at all — the token
guard performs one exchange exactly when no token is cached, and returns
any cached token unchanged with zero network calls regardless of elapsed
time. Hence two calls within the validity window still trigger exactly one
exchange, but a call after expiry triggers none (the stale token is only
replaced via the 401 retry path of a search). -/
theorem claim7_thm (r1 r2 : Option String) (t : String) :
    (ensure_spotify_token none r1).2 = 1 ∧
    ensure_spotify_token (some t) r2 = (some t, 0) ∧
    (ensure_spotify_token none (some t)).1 = some t ∧
    (ensure_spotify_token none (some t)).2 +
      (ensure_spotify_token (ensure_spotify_token none (some t)).1 r2).2 = 1 ∧
    (∀ env : MusicEnv, env.firstStatus ≠ 401 →
      (search_music true (some t) env).exchanges = 0) := by
  refine ⟨?_, rfl, rfl, rfl, ?_⟩
  · cases r1 <;> rfl
  · intro env h
    have h401 : (env.firstStatus == 401) = false := by
      simpa using h
    by_cases h200 : env.firstStatus = 200 <;>
      simp [search_music, ensure_spotify_token, h401, h200]

/-- Witness for `claim7_thm` at concrete exchange responses. -/
theorem claim7_witness :
    (ensure_spotify_token none (some "a")).2 = 1 ∧
    ensure_spotify_token (some "t") (some "b") = (some "t", 0) ∧
    (ensure_spotify_token none (some "t")).1 = some "t" ∧
    (ensure_spotify_token none (some "t")).2 +
      (ensure_spotify_token (ensure_spotify_token none (some "t")).1
        (some "b")).2 = 1 ∧
    (∀ env : MusicEnv, env.firstStatus ≠ 401 →
      (search_music true (some "t") env).exchanges = 0) :=
  claim7_thm (some "a") (some "b") "t"

/-! ## Claim C8: the 401 refresh-and-retry discipline -/

/-- Claim C8: a 401 on the search request triggers exactly one forced token
refresh and exactly one retry (two requests in total, never a third); if
the retry also fails with 401 the call is terminal, surfacing the client's
failure value `none`; if the retry succeeds its payload is returned. -/
theorem claim8_thm (tok : Option String) (env : MusicEnv)
    (h401 : env.firstStatus = 401) :
    (search_music true tok env).forcedRefreshes = 1 ∧
    (search_music true tok env).requests = 2 ∧
    (env.retryStatus = 401 → (search_music true tok env).result = none) ∧
    (env.retryStatus = 200 →
      (search_music true tok env).result = some env.retryItems) := by
  refine ⟨?_, ?_, ?_, ?_⟩
  · by_cases hr : env.retryStatus = 200 <;> simp [search_music, h401, hr]
  · by_cases hr : env.retryStatus = 200 <;> simp [search_music, h401, hr]
  · intro hr
    have : (env.retryStatus != 200) = true := by simp [hr]
    simp [search_music, h401, this]
  · intro hr
    simp [search_music, h401, hr]

/-- Witness for `claim8_thm`: in `env401` both requests answer 401 —
one refresh, one retry, then the terminal `none`. -/
theorem claim8_witness :
    (search_music true (some "old") env401).forcedRefreshes = 1 ∧
    (search_music true (some "old") env401).requests = 2 ∧
    (env401.retryStatus = 401 →
      (search_music true (some "old") env401).result = none) ∧
    (env401.retryStatus = 200 →
      (search_music true (some "old") env401).result =
        some env401.retryItems) :=
  claim8_thm (some "old") env401 rfl

/-! ## Claim C9: the borrow cap lives in the orchestrating layer -/

/-- Claim C9: when the user already holds at least `maxLoans` loans, the
borrow flow stops with `limitReached` before any network call or ledger
write — the ledger is untouched; and `MediaRepository.borrow_media` itself
enforces no cap: a distinct borrow through the repository always adds a row
for the user, however many they already hold. -/
theorem claim9_thm (now d dueDate : Int) (st : List Loan)
    (uid maxLoans : Nat) (un isbn mt : String) (fetch : Option MediaInfo)
    (info : MediaInfo)
    (hfull : maxLoans ≤ (get_user_media st uid).length)
    (hnew : st.any (keyMatch uid mt info.external_id) = false) :
    (borrow_book_flow now st uid un isbn maxLoans fetch dueDate).state = st ∧
    (borrow_book_flow now st uid un isbn maxLoans fetch
      dueDate).ledgerWrites = 0 ∧
    (borrow_book_flow now st uid un isbn maxLoans fetch
      dueDate).networkCalls = 0 ∧
    (borrow_book_flow now st uid un isbn maxLoans fetch dueDate).outcome =
      .limitReached ∧
    (get_user_media (borrow_media now st uid un mt info d) uid).length =
      (get_user_media st uid).length + 1 := by
  have hlim : check_loan_limit st uid maxLoans = false := by
    simp [check_loan_limit]
    omega
  refine ⟨?_, ?_, ?_, ?_, ?_⟩
  · simp [borrow_book_flow, hlim]
  · simp [borrow_book_flow, hlim]
  · simp [borrow_book_flow, hlim]
  · simp [borrow_book_flow, hlim]
  · have hins : borrow_media now st uid un mt info d =
        st ++ [mkLoan now uid un mt info d] := by
      simp [borrow_media, hnew]
    rw [hins]
    unfold get_user_media
    rw [List.filter_append]
    simp [mkLoan]

/-- Witness for `claim9_thm`: user 1 holds two loans and
`maxLoansPerUser = 2`; the third distinct borrow is rejected with no state
change, while a direct repository write would still add the row. -/
theorem claim9_witness :
    (borrow_book_flow 0 [loanA, loanB] 1 "alice" "9780306406157" 2
      (some recBook) 14).state = [loanA, loanB] ∧
    (borrow_book_flow 0 [loanA, loanB] 1 "alice" "9780306406157" 2
      (some recBook) 14).ledgerWrites = 0 ∧
    (borrow_book_flow 0 [loanA, loanB] 1 "alice" "9780306406157" 2
      (some recBook) 14).networkCalls = 0 ∧
    (borrow_book_flow 0 [loanA, loanB] 1 "alice" "9780306406157" 2
      (some recBook) 14).outcome = .limitReached ∧
    (get_user_media (borrow_media 0 [loanA, loanB] 1 "alice" "book" recBook
      14) 1).length = (get_user_media [loanA, loanB] 1).length + 1 :=
  claim9_thm 0 14 14 [loanA, loanB] 1 2 "alice" "9780306406157" "book"
    (some recBook) recBook (by decide) (by decide)

/-! ## Claim C10: the frame of the re-borrow upsert -/

/-- Claim C10: re-borrowing an existing key updates that row in place (the
table keeps its length), overwriting exactly `title`, `subtitle`,
`authors`, `artists`, `description`, `cover` and `due_date` and resetting
`reminded`, while `username`, `created_on`, `release_date`, `duration`,
`genres`, `publisher`, `isbn`, `upc`, `rating`, `platforms`, `players` and
the key columns keep the stored row's values even when the new record
differs in all of them. -/
theorem claim10_thm (now d : Int) (st : List Loan) (uid : Nat)
    (un mt : String) (info : MediaInfo) (l : Loan) (hl : l ∈ st)
    (hk : keyMatch uid mt info.external_id l = true) :
    (borrow_media now st uid un mt info d).length = st.length ∧
    applyDupUpdate info d l ∈ borrow_media now st uid un mt info d ∧
    (applyDupUpdate info d l).title = info.title ∧
    (applyDupUpdate info d l).subtitle = info.subtitle ∧
    (applyDupUpdate info d l).authors = info.authors ∧
    (applyDupUpdate info d l).artists = info.artists ∧
    (applyDupUpdate info d l).description = info.description ∧
    (applyDupUpdate info d l).cover = info.cover ∧
    (applyDupUpdate info d l).dueDate = d ∧
    (applyDupUpdate info d l).reminded = false ∧
    (applyDupUpdate info d l).username = l.username ∧
    (applyDupUpdate info d l).createdOn = l.createdOn ∧
    (applyDupUpdate info d l).release_date = l.release_date ∧
    (applyDupUpdate info d l).duration = l.duration ∧
    (applyDupUpdate info d l).genres = l.genres ∧
    (applyDupUpdate info d l).publisher = l.publisher ∧
    (applyDupUpdate info d l).isbn = l.isbn ∧
    (applyDupUpdate info d l).upc = l.upc ∧
    (applyDupUpdate info d l).rating = l.rating ∧
    (applyDupUpdate info d l).platforms = l.platforms ∧
    (applyDupUpdate info d l).players = l.players ∧
    (applyDupUpdate info d l).userId = l.userId ∧
    (applyDupUpdate info d l).mediaType = l.mediaType ∧
    (applyDupUpdate info d l).externalId = l.externalId := by
  have hany : st.any (keyMatch uid mt info.external_id) = true :=
    List.any_eq_true.mpr ⟨l, hl, hk⟩
  refine ⟨?_, ?_, rfl, rfl, rfl, rfl, rfl, rfl, rfl, rfl, rfl, rfl, rfl, rfl,
    rfl, rfl, rfl, rfl, rfl, rfl, rfl, rfl, rfl, rfl⟩
  · rw [borrow_media_update now d st uid un mt info hany]
    exact List.length_map st _
  · rw [borrow_media_update now d st uid un mt info hany]
    exact List.mem_map.mpr ⟨l, hl, by simp [hk]⟩

/-- Witness for `claim10_thm`: user 1 re-borrows item `"111"` with the
fully different record `recDune2`; the stored `loanA` is updated in
place. -/
theorem claim10_witness :
    (borrow_media 9 [loanA] 1 "alice" "book" recDune2 30).length =
      ([loanA] : List Loan).length ∧
    applyDupUpdate recDune2 30 loanA ∈
      borrow_media 9 [loanA] 1 "alice" "book" recDune2 30 ∧
    (applyDupUpdate recDune2 30 loanA).title = recDune2.title ∧
    (applyDupUpdate recDune2 30 loanA).dueDate = 30 ∧
    (applyDupUpdate recDune2 30 loanA).reminded = false ∧
    (applyDupUpdate recDune2 30 loanA).username = loanA.username ∧
    (applyDupUpdate recDune2 30 loanA).createdOn = loanA.createdOn ∧
    (applyDupUpdate recDune2 30 loanA).isbn = loanA.isbn := by
  obtain ⟨a1, a2, a3, _, _, _, _, _, a9, a10, a11, a12, _, _, _, _, a17, _⟩ :=
    claim10_thm 9 30 [loanA] 1 "alice" "book" recDune2 loanA
      (by decide) (by decide)
  exact ⟨a1, a2, a3, a9, a10, a11, a12, a17⟩

end DCLib
